import Mathlib

/-!
Verification of the kinematic core of a top-down car simulation
(file `sim/car.py`).

The Python code computes with IEEE-754 doubles and calls `math.cos`,
`math.sin`, `math.hypot` and `math.atan2`.  The embedding models every
numeric value as an exact rational (`ℚ`).  Trigonometric functions are
passed in as parameters (`tcos`, `tsin`), since none of the verified
properties depends on their values.  Comparisons the source writes with
`math.hypot` (a square root) are embedded as the equivalent comparisons
of squares, guarded by the sign of the right-hand side:
for real `s`, `Real.sqrt d2 < s ↔ 0 < s ∧ d2 < s ^ 2` whenever `0 ≤ d2`.
The 30-degree cone test `abs (atan2 dy dx) < pi / 6` (with `dx > 0`) is
embedded as `3 * dy ^ 2 < dx ^ 2`, using `tan (pi / 6) ^ 2 = 1 / 3` and
the monotonicity of `atan`.
-/

namespace Neurotics

/-- World size in conceptual meters (`WORLD_SIZE = 4.0`). -/
def WORLD_SIZE : ℚ := 4

/-- Frames per second (`FPS = 60`). -/
def FPS : ℚ := 60

/-- Maximum forward speed (`MAX_SPEED = 2.5`). -/
def MAX_SPEED : ℚ := 5 / 2

/-- Forward acceleration (`ACCEL = 4.0`). -/
def ACCEL : ℚ := 4

/-- Braking / reverse acceleration (`BRAKE = 6.0`). -/
def BRAKE : ℚ := 6

/-- Steering rate at full input (`STEER_SPEED = 2.5`). -/
def STEER_SPEED : ℚ := 5 / 2

/-- Velocity damping per second (`DRAG = 0.8`). -/
def DRAG : ℚ := 4 / 5

/-- Number of obstacles requested (`NUM_OBSTACLES = 6`). -/
def NUM_OBSTACLES : ℕ := 6

/-- Minimum obstacle radius (`OBSTACLE_RADIUS_MIN = 0.04`). -/
def OBSTACLE_RADIUS_MIN : ℚ := 1 / 25

/-- Maximum obstacle radius (`OBSTACLE_RADIUS_MAX = 0.12`). -/
def OBSTACLE_RADIUS_MAX : ℚ := 3 / 25

/-- Goal position (`GOAL_POS = (1.9, 1.0)`). -/
def GOAL_POS : ℚ × ℚ := (19 / 10, 1)

/-- Goal radius (`GOAL_RADIUS = 0.06`). -/
def GOAL_RADIUS : ℚ := 3 / 50

/-- Start position (`START_POS = (0.05, 1.0)`). -/
def START_POS : ℚ × ℚ := (1 / 20, 1)

/-- Clearance margin between obstacles and other features
(`OBSTACLE_TOLERANCE = 0.03`). -/
def OBSTACLE_TOLERANCE : ℚ := 3 / 100

/-- Screen width in pixels (`SCREEN_W = 800`). -/
def SCREEN_W : ℚ := 800

/-- Screen height in pixels (`SCREEN_H = 800`). -/
def SCREEN_H : ℚ := 800

/-- Field margin in pixels (`MARGIN = 50`). -/
def MARGIN : ℚ := 50

/-- Drawable field width (`FIELD_W = SCREEN_W - 2*MARGIN`). -/
def FIELD_W : ℚ := SCREEN_W - 2 * MARGIN

/-- Drawable field height (`FIELD_H = SCREEN_H - 2*MARGIN`). -/
def FIELD_H : ℚ := SCREEN_H - 2 * MARGIN

/-- The vehicle state of `class Car`: position, heading, forward speed,
steering input memory, collision envelope and the bounded trajectory
history. -/
structure Car where
  x : ℚ
  y : ℚ
  theta : ℚ
  v : ℚ
  steer : ℚ
  width : ℚ
  length : ℚ
  history : List (ℚ × ℚ)
deriving DecidableEq, Repr

/-- `Car.__init__(x, y, theta)`: fresh car at the given pose with zero
speed, zero steering, the fixed envelope `width = 0.12`, `length = 0.2`
and empty history. -/
def Car.init (x y theta : ℚ) : Car :=
  { x := x, y := y, theta := theta, v := 0, steer := 0
    width := 3 / 25, length := 1 / 5, history := [] }

/-- `Car.step(accel_input, steer_input, dt)`, with the two calls to
`math.cos` / `math.sin` abstracted as the parameters `tcos` / `tsin`.
Follows the source line by line: accelerate or brake, apply Euler drag,
clamp speed, integrate heading, integrate position, clamp position into
the world square, append the clamped position to the history and evict
the oldest entry past 5000. -/
def Car.step (tcos tsin : ℚ → ℚ) (accel_input steer_input dt : ℚ) (c : Car) : Car :=
  let v0 : ℚ := if accel_input > 0
    then c.v + accel_input * ACCEL * dt
    else c.v + accel_input * BRAKE * dt
  let v1 : ℚ := v0 - v0 * DRAG * dt
  let v2 : ℚ := if v1 > MAX_SPEED then MAX_SPEED else v1
  let v3 : ℚ := if v2 < -MAX_SPEED * (1 / 2) then -MAX_SPEED * (1 / 2) else v2
  let angular_vel : ℚ := steer_input * STEER_SPEED * (2 / 5 + |v3| / MAX_SPEED)
  let theta1 : ℚ := c.theta + angular_vel * dt
  let dx : ℚ := v3 * tcos theta1 * dt
  let dy : ℚ := v3 * tsin theta1 * dt
  let x1 : ℚ := min (max (c.x + dx) 0) WORLD_SIZE
  let y1 : ℚ := min (max (c.y + dy) 0) WORLD_SIZE
  let hist1 : List (ℚ × ℚ) := c.history ++ [(x1, y1)]
  let hist2 : List (ℚ × ℚ) := if hist1.length > 5000 then hist1.drop 1 else hist1
  { c with x := x1, y := y1, theta := theta1, v := v3, history := hist2 }

/-- A circular obstacle, the tuple `(x, y, r)` of the source. -/
structure Obstacle where
  x : ℚ
  y : ℚ
  r : ℚ
deriving DecidableEq, Repr

/-- `check_collision(car, obstacles)`: bounding-circle test against every
obstacle (`dist2 <= (r + car_radius)**2` with
`car_radius = max(width, length) * 0.6`), then the wall test. -/
def check_collision (car : Car) (obstacles : List Obstacle) : Bool :=
  if obstacles.any
      (fun o => decide ((car.x - o.x) ^ 2 + (car.y - o.y) ^ 2 ≤
        (o.r + max car.width car.length * (3 / 5)) ^ 2))
  then true
  else decide (car.x ≤ 0 ∨ WORLD_SIZE ≤ car.x ∨ car.y ≤ 0 ∨ WORLD_SIZE ≤ car.y)

/-- `reached_goal(car)`: squared-distance test against the fixed goal. -/
def reached_goal (car : Car) : Bool :=
  decide ((car.x - GOAL_POS.1) ^ 2 + (car.y - GOAL_POS.2) ^ 2 ≤ GOAL_RADIUS ^ 2)

/-- Auxiliary: the post-step position always lies in `[0, WORLD_SIZE]^2`,
directly from the two `min (max _ 0) WORLD_SIZE` clamps. -/
theorem step_pos_bounds (tcos tsin : ℚ → ℚ) (a s dt : ℚ) (c : Car) :
    0 ≤ (Car.step tcos tsin a s dt c).x ∧ (Car.step tcos tsin a s dt c).x ≤ WORLD_SIZE ∧
      0 ≤ (Car.step tcos tsin a s dt c).y ∧ (Car.step tcos tsin a s dt c).y ≤ WORLD_SIZE := by
  unfold Car.step
  refine ⟨?_, ?_, ?_, ?_⟩
  · exact le_min (le_max_right _ _) (by norm_num [WORLD_SIZE])
  · exact min_le_right _ _
  · exact le_min (le_max_right _ _) (by norm_num [WORLD_SIZE])
  · exact min_le_right _ _

/-- C2: After every call to `Car.step`, for any acceleration input, steering
input, and `dt > 0`, and any prior state, the vehicle's speed lies within
`[-0.5 * MAX_SPEED, MAX_SPEED] = [-1.25, 2.5]`. -/
theorem step_speed_invariant (tcos tsin : ℚ → ℚ) (a s dt : ℚ) (c : Car)
    (hdt : 0 < dt) :
    -MAX_SPEED * (1 / 2) ≤ (Car.step tcos tsin a s dt c).v ∧
      (Car.step tcos tsin a s dt c).v ≤ MAX_SPEED := by
  unfold Car.step
  simp only [MAX_SPEED]
  split <;> split <;> split <;> constructor <;> simp_all <;> linarith

/-- Witness for C2 at a concrete input. -/
theorem step_speed_invariant_witness :
    (0 : ℚ) < 1 ∧
      (-MAX_SPEED * (1 / 2) ≤ (Car.step (fun _ => 1) (fun _ => 0) 1 0 1 (Car.init (1 / 20) 1 0)).v ∧
        (Car.step (fun _ => 1) (fun _ => 0) 1 0 1 (Car.init (1 / 20) 1 0)).v ≤ MAX_SPEED) :=
  ⟨by norm_num,
    step_speed_invariant (fun _ => 1) (fun _ => 0) 1 0 1 (Car.init (1 / 20) 1 0) (by norm_num)⟩

/-- C3: After every call to `Car.step`, for any inputs and any prior state,
the vehicle's position lies within `[0, WORLD_SIZE]^2 = [0, 4]^2`. -/
theorem step_position_invariant (tcos tsin : ℚ → ℚ) (a s dt : ℚ) (c : Car) :
    0 ≤ (Car.step tcos tsin a s dt c).x ∧ (Car.step tcos tsin a s dt c).x ≤ WORLD_SIZE ∧
      0 ≤ (Car.step tcos tsin a s dt c).y ∧ (Car.step tcos tsin a s dt c).y ≤ WORLD_SIZE :=
  step_pos_bounds tcos tsin a s dt c

/-- C1 (counterexample): for speed `v = 1` and `dt = 3 > 0`, the zero-input
step flips the sign of the speed and increases its magnitude
(`v` becomes `-5/4` after drag and the lower clamp), so the drag-only
decay claim is false for arbitrary `dt > 0`. -/
theorem step_zero_input_decay_cex :
    0 < ({ Car.init (1 / 20) 1 0 with v := 1 } : Car).v ∧
      (Car.step (fun _ => 0) (fun _ => 0) 0 0 3
        { Car.init (1 / 20) 1 0 with v := 1 }).v < 0 ∧
      |({ Car.init (1 / 20) 1 0 with v := 1 } : Car).v| <
        |(Car.step (fun _ => 0) (fun _ => 0) 0 0 3
          { Car.init (1 / 20) 1 0 with v := 1 }).v| := by
  norm_num [Car.step, Car.init, DRAG, MAX_SPEED, ACCEL, BRAKE, abs]

/-- C1 (amended): for every state and every `dt` with `0 < dt` and
`DRAG * dt < 1` (so for every realistic frame time; `1 / DRAG = 1.25 s`),
the zero-input step strictly decreases the magnitude of a nonzero speed
and preserves its sign.  For larger `dt` the explicit Euler drag update
can flip the sign or grow the magnitude, as the counterexample shows. -/
theorem step_zero_input_decay (tcos tsin : ℚ → ℚ) (dt : ℚ) (c : Car)
    (hdt : 0 < dt) (hdrag : DRAG * dt < 1) :
    (0 < c.v → 0 < (Car.step tcos tsin 0 0 dt c).v ∧
      (Car.step tcos tsin 0 0 dt c).v < c.v) ∧
    (c.v < 0 → (Car.step tcos tsin 0 0 dt c).v < 0 ∧
      c.v < (Car.step tcos tsin 0 0 dt c).v) := by
  unfold Car.step
  rw [DRAG] at hdrag
  simp only [DRAG, MAX_SPEED, ACCEL, BRAKE, gt_iff_lt, lt_self_iff_false, if_false,
    zero_mul, add_zero]
  refine ⟨fun hv => ?_, fun hv => ?_⟩
  · split_ifs <;> constructor <;>
      nlinarith [mul_lt_mul_of_pos_left hdrag hv, mul_pos hv hdt]
  · have hv' : 0 < -c.v := neg_pos.mpr hv
    split_ifs <;> constructor <;>
      nlinarith [mul_lt_mul_of_pos_left hdrag hv', mul_pos hv' hdt]

/-- Witness for C1 (amended) at `v = 1`, `dt = 1`. -/
theorem step_zero_input_decay_witness :
    (0 : ℚ) < 1 ∧ DRAG * 1 < 1 ∧
      0 < (Car.step (fun _ => 0) (fun _ => 0) 0 0 1
        { Car.init (1 / 20) 1 0 with v := 1 }).v ∧
      (Car.step (fun _ => 0) (fun _ => 0) 0 0 1
        { Car.init (1 / 20) 1 0 with v := 1 }).v <
        ({ Car.init (1 / 20) 1 0 with v := 1 } : Car).v :=
  ⟨by norm_num, by norm_num [DRAG],
    ((step_zero_input_decay (fun _ => 0) (fun _ => 0) 1
      { Car.init (1 / 20) 1 0 with v := 1 } (by norm_num)
      (by norm_num [DRAG])).1 (by norm_num [Car.init])).1,
    ((step_zero_input_decay (fun _ => 0) (fun _ => 0) 1
      { Car.init (1 / 20) 1 0 with v := 1 } (by norm_num)
      (by norm_num [DRAG])).1 (by norm_num [Car.init])).2⟩

/-- C7: `check_collision` is true for any vehicle on (or beyond) the arena
boundary — the wall branch fires whatever the obstacle list is; in
particular the freshly initialised car at `(0, 0)` collides; and a
post-step position can satisfy the wall condition only by being exactly
on the boundary, since `Car.step` clamps into `[0, WORLD_SIZE]^2`. -/
theorem check_collision_wall :
    (∀ (c : Car) (obs : List Obstacle),
      (c.x ≤ 0 ∨ WORLD_SIZE ≤ c.x ∨ c.y ≤ 0 ∨ WORLD_SIZE ≤ c.y) →
        check_collision c obs = true) ∧
    check_collision (Car.init 0 0 0) [] = true ∧
    (∀ (tcos tsin : ℚ → ℚ) (a s dt : ℚ) (c : Car),
      ((Car.step tcos tsin a s dt c).x ≤ 0 ∨ WORLD_SIZE ≤ (Car.step tcos tsin a s dt c).x ∨
        (Car.step tcos tsin a s dt c).y ≤ 0 ∨ WORLD_SIZE ≤ (Car.step tcos tsin a s dt c).y) ↔
      ((Car.step tcos tsin a s dt c).x = 0 ∨ (Car.step tcos tsin a s dt c).x = WORLD_SIZE ∨
        (Car.step tcos tsin a s dt c).y = 0 ∨ (Car.step tcos tsin a s dt c).y = WORLD_SIZE)) := by
  have hwall : ∀ (c : Car) (obs : List Obstacle),
      (c.x ≤ 0 ∨ WORLD_SIZE ≤ c.x ∨ c.y ≤ 0 ∨ WORLD_SIZE ≤ c.y) →
        check_collision c obs = true := by
    intro c obs h
    unfold check_collision
    split
    · rfl
    · exact decide_eq_true h
  refine ⟨hwall, hwall (Car.init 0 0 0) [] (Or.inl (by norm_num [Car.init])), ?_⟩
  intro tcos tsin a s dt c
  obtain ⟨hx0, hx1, hy0, hy1⟩ := step_pos_bounds tcos tsin a s dt c
  constructor
  · rintro (h | h | h | h)
    · exact Or.inl (le_antisymm h hx0)
    · exact Or.inr (Or.inl (le_antisymm hx1 h))
    · exact Or.inr (Or.inr (Or.inl (le_antisymm h hy0)))
    · exact Or.inr (Or.inr (Or.inr (le_antisymm hy1 h)))
  · rintro (h | h | h | h)
    · exact Or.inl (le_of_eq h)
    · exact Or.inr (Or.inl (ge_of_eq h))
    · exact Or.inr (Or.inr (Or.inl (le_of_eq h)))
    · exact Or.inr (Or.inr (Or.inr (ge_of_eq h)))

/-- Witness for C7 at a car sitting on the right wall. -/
theorem check_collision_wall_witness :
    check_collision (Car.init WORLD_SIZE 2 0) [] = true :=
  check_collision_wall.1 (Car.init WORLD_SIZE 2 0) []
    (Or.inr (Or.inl (by norm_num [Car.init])))

/-- The per-frame outcome update of `main` (lines 238-241 of the source):
`if check_collision(car, obstacles): collision = True` followed
unconditionally by `if reached_goal(car): win = True`.  Returns the new
`(win, collision)` pair. -/
def frame_check (car : Car) (obstacles : List Obstacle) (win collision : Bool) :
    Bool × Bool :=
  let collision1 : Bool := if check_collision car obstacles then true else collision
  let win1 : Bool := if reached_goal car then true else win
  (win1, collision1)

/-- C6 (counterexample): with the car at the goal centre and an obstacle on
the goal, both predicates are true in the same frame, and the frame sets
BOTH flags: the collision flag stays `true`, so the outcome does not
resolve to Won — nothing overrides the `Collided` outcome (the source
keeps two independent booleans). -/
theorem frame_check_both_cex :
    check_collision (Car.init (19 / 10) 1 0) [⟨19 / 10, 1, 1 / 100⟩] = true ∧
    reached_goal (Car.init (19 / 10) 1 0) = true ∧
    frame_check (Car.init (19 / 10) 1 0) [⟨19 / 10, 1, 1 / 100⟩] false false =
      (true, true) := by
  refine ⟨?_, ?_, ?_⟩ <;>
    norm_num [frame_check, check_collision, reached_goal, Car.init,
      GOAL_POS, GOAL_RADIUS, WORLD_SIZE]

/-- C6 (amended): in a frame where both `check_collision` and
`reached_goal` are true for the post-step state, the code records both
outcomes — collision is evaluated first, then the goal check runs
unconditionally afterward, and each sets its own flag; neither result
overrides the other. -/
theorem frame_check_both (car : Car) (obstacles : List Obstacle) (win collision : Bool)
    (hc : check_collision car obstacles = true)
    (hg : reached_goal car = true) :
    frame_check car obstacles win collision = (true, true) := by
  unfold frame_check
  rw [hc, hg]
  simp

/-- Witness for C6 (amended) at the concrete both-true frame. -/
theorem frame_check_both_witness :
    frame_check (Car.init (19 / 10) 1 0) [⟨19 / 10, 1, 1 / 100⟩] true false =
      (true, true) :=
  frame_check_both (Car.init (19 / 10) 1 0) [⟨19 / 10, 1, 1 / 100⟩] true false
    (by norm_num [check_collision, Car.init, WORLD_SIZE])
    (by norm_num [reached_goal, Car.init, GOAL_POS, GOAL_RADIUS])

/-- Python `int(...)` applied to an exact rational: truncation toward
zero. -/
def pyInt (q : ℚ) : ℤ :=
  if q < 0 then -(Int.floor (-q)) else Int.floor q

/-- `world_to_screen(x, y)`: affine map of world coordinates onto the
pixel field, y flipped, truncated to integer pixels by `int(...)`. -/
def world_to_screen (x y : ℚ) : ℤ × ℤ :=
  let sx : ℚ := MARGIN + x / WORLD_SIZE * FIELD_W
  let sy : ℚ := MARGIN + (WORLD_SIZE - y) / WORLD_SIZE * FIELD_H
  (pyInt sx, pyInt sy)

/-- The linear map computed by `world_to_screen` before its truncation to
integer pixels (the values of `sx`, `sy` in the source before `int`). -/
def world_to_screen_exact (x y : ℚ) : ℚ × ℚ :=
  (MARGIN + x / WORLD_SIZE * FIELD_W, MARGIN + (WORLD_SIZE - y) / WORLD_SIZE * FIELD_H)

/-- `screen_to_world(sx, sy)`: the inverse affine map, exact rational
arithmetic. -/
def screen_to_world (sx sy : ℚ) : ℚ × ℚ :=
  ((sx - MARGIN) / FIELD_W * WORLD_SIZE, WORLD_SIZE - (sy - MARGIN) / FIELD_H * WORLD_SIZE)

/-- `pyInt` is the identity on integers. -/
theorem pyInt_intCast (n : ℤ) : pyInt (n : ℚ) = n := by
  unfold pyInt
  split
  · rw [← Int.cast_neg, Int.floor_intCast]
    ring
  · exact Int.floor_intCast n

/-- C9: for every integer pixel point inside the viewport,
`world_to_screen (screen_to_world p) = p` exactly (truncation included),
and `screen_to_world` is the exact two-sided inverse of the linear map
computed by `world_to_screen` before truncation. -/
theorem screen_world_roundtrip :
    (∀ sx sy : ℤ, 50 ≤ sx → sx ≤ 750 → 50 ≤ sy → sy ≤ 750 →
      world_to_screen (screen_to_world (sx : ℚ) (sy : ℚ)).1
        (screen_to_world (sx : ℚ) (sy : ℚ)).2 = (sx, sy)) ∧
    (∀ x y : ℚ, screen_to_world (world_to_screen_exact x y).1
      (world_to_screen_exact x y).2 = (x, y)) := by
  have h1 : ∀ q : ℚ,
      MARGIN + (q - MARGIN) / FIELD_W * WORLD_SIZE / WORLD_SIZE * FIELD_W = q := by
    intro q
    simp only [MARGIN, FIELD_W, WORLD_SIZE, SCREEN_W]
    ring
  have h2 : ∀ q : ℚ,
      MARGIN + (WORLD_SIZE - (WORLD_SIZE - (q - MARGIN) / FIELD_H * WORLD_SIZE))
        / WORLD_SIZE * FIELD_H = q := by
    intro q
    simp only [MARGIN, FIELD_H, WORLD_SIZE, SCREEN_H]
    ring
  constructor
  · intro sx sy _ _ _ _
    dsimp only [world_to_screen, screen_to_world]
    rw [h1, h2]
    simp only [pyInt_intCast]
  · intro x y
    dsimp only [screen_to_world, world_to_screen_exact]
    rw [Prod.mk.injEq]
    constructor <;>
      · simp only [MARGIN, FIELD_W, FIELD_H, WORLD_SIZE, SCREEN_W, SCREEN_H]
        ring

/-- Witness for C9 at the pixel `(400, 400)`. -/
theorem screen_world_roundtrip_witness :
    world_to_screen (screen_to_world (400 : ℚ) (400 : ℚ)).1
      (screen_to_world (400 : ℚ) (400 : ℚ)).2 = (400, 400) :=
  screen_world_roundtrip.1 400 400 (by norm_num) (by norm_num)
    (by norm_num) (by norm_num)

/-- `downgrade_v_to_0(v, dt)`: iterate `v -= v * DRAG` exactly `dt` times
(the local `v_new = 0.0` of the source is dead and never read). -/
def downgrade_v_to_0 (v : ℚ) (dt : ℕ) : ℚ :=
  (List.range dt).foldl (fun w _ => w - w * DRAG) v

/-- The iteration count `int(FPS * 0.2)` used by the immediate-stop key in
`main`. -/
def stop_iterations : ℕ := (pyInt (FPS * (1 / 5))).toNat

/-- Each drag iteration multiplies the speed by `1 - DRAG = 0.2`. -/
theorem downgrade_closed_form (v : ℚ) (n : ℕ) :
    downgrade_v_to_0 v n = v * (1 / 5) ^ n := by
  induction n with
  | zero => simp [downgrade_v_to_0]
  | succ m ih =>
    unfold downgrade_v_to_0 at ih ⊢
    rw [List.range_succ, List.foldl_append, ih]
    simp [DRAG]
    ring

/-- C10: `downgrade_v_to_0 v n = v * 0.2 ^ n`; for `v ≠ 0` the result is
never zero; and the immediate-stop action calls it with
`int(FPS * 0.2) = 12` iterations, yielding `v * 0.2 ^ 12`, not exactly
zero. -/
theorem downgrade_never_zero (v : ℚ) (n : ℕ) :
    downgrade_v_to_0 v n = v * (1 / 5) ^ n ∧
    (v ≠ 0 → downgrade_v_to_0 v n ≠ 0) ∧
    stop_iterations = 12 ∧
    (v ≠ 0 → downgrade_v_to_0 v stop_iterations ≠ 0) := by
  have hstop : stop_iterations = 12 := by
    norm_num [stop_iterations, pyInt, FPS]
    rfl
  have hnz : ∀ m : ℕ, v ≠ 0 → downgrade_v_to_0 v m ≠ 0 := by
    intro m hv
    rw [downgrade_closed_form]
    exact mul_ne_zero hv (pow_ne_zero m (by norm_num))
  exact ⟨downgrade_closed_form v n, hnz n, hstop, hnz stop_iterations⟩

/-- Witness for C10 at `v = 1`, `n = 3`. -/
theorem downgrade_never_zero_witness :
    downgrade_v_to_0 1 3 = 1 * (1 / 5) ^ 3 ∧ downgrade_v_to_0 1 3 ≠ 0 :=
  ⟨(downgrade_never_zero 1 3).1,
    (downgrade_never_zero 1 3).2.1 (by norm_num)⟩

/-- `rng.uniform(a, b)`: `a + (b - a) * u` where `u` is the underlying
`random()` draw in `[0, 1]`. -/
def uniform (a b u : ℚ) : ℚ := a + (b - a) * u

/-- The comparison `math.hypot dx dy < s` over exact rationals: for real
`s`, `Real.sqrt d2 < s ↔ 0 < s ∧ d2 < s ^ 2` when `0 ≤ d2`. -/
def hypot_lt (dx dy s : ℚ) : Bool :=
  decide (0 < s ∧ dx * dx + dy * dy < s * s)

/-- The start/goal clearance rejection of `generate_obstacles`:
`dist < r + GOAL_RADIUS + OBSTACLE_TOLERANCE` for either reference
point. -/
def near_point (x y r px py : ℚ) : Bool :=
  hypot_lt (x - px) (y - py) (r + GOAL_RADIUS + OBSTACLE_TOLERANCE)

/-- Rejection when the candidate is too close to the start or the goal. -/
def too_close_points (x y r : ℚ) : Bool :=
  near_point x y r START_POS.1 START_POS.2 || near_point x y r GOAL_POS.1 GOAL_POS.2

/-- The forward-cone rejection: `dx > 0`, `|atan2 dy dx| < radians 30`
(equivalently `3 * dy^2 < dx^2` when `dx > 0`, via `tan (pi/6)^2 = 1/3`),
and `hypot dx dy < 0.4`. -/
def front_cone_reject (x y : ℚ) : Bool :=
  decide (0 < x - START_POS.1) &&
    decide (3 * ((y - START_POS.2) * (y - START_POS.2)) <
      (x - START_POS.1) * (x - START_POS.1)) &&
    hypot_lt (x - START_POS.1) (y - START_POS.2) (2 / 5)

/-- Membership of a centre in the goal annulus
`GOAL_RADIUS + 0.03 < dist < GOAL_RADIUS + 0.13` (both bounds positive, so
the squared comparison is faithful). -/
def in_goal_ring (ox oy : ℚ) : Bool :=
  decide ((GOAL_RADIUS + 3 / 100) * (GOAL_RADIUS + 3 / 100) <
      (ox - GOAL_POS.1) * (ox - GOAL_POS.1) + (oy - GOAL_POS.2) * (oy - GOAL_POS.2)) &&
    decide ((ox - GOAL_POS.1) * (ox - GOAL_POS.1) + (oy - GOAL_POS.2) * (oy - GOAL_POS.2) <
      (GOAL_RADIUS + 13 / 100) * (GOAL_RADIUS + 13 / 100))

/-- The ring rejection: the candidate sits in the goal annulus and at least
3 accepted obstacles already do. -/
def ring_reject (obs : List Obstacle) (x y : ℚ) : Bool :=
  in_goal_ring x y && decide (3 ≤ obs.countP (fun o => in_goal_ring o.x o.y))

/-- The overlap rejection:
`hypot (x - ox) (y - oy) < r + orad + OBSTACLE_TOLERANCE` for some
accepted obstacle. -/
def overlap_reject (obs : List Obstacle) (x y r : ℚ) : Bool :=
  obs.any (fun o => hypot_lt (x - o.x) (y - o.y) (r + o.r + OBSTACLE_TOLERANCE))

/-- One loop body of `generate_obstacles`: run the four rejection tests in
the source order and append the candidate exactly when all fail. -/
def try_place (obs : List Obstacle) (x y r : ℚ) : List Obstacle :=
  if too_close_points x y r || front_cone_reject x y ||
      ring_reject obs x y || overlap_reject obs x y r
  then obs
  else obs ++ [⟨x, y, r⟩]

/-- `max_attempts = 1000` of `generate_obstacles`. -/
def max_attempts : ℕ := 1000

/-- The `while len(obs) < NUM_OBSTACLES and attempts < max_attempts` loop,
with remaining fuel `max_attempts - attempts`; three `random()` draws per
iteration (`x`, `y`, `r`), taken from the stream `u`.  Returns the
accepted obstacles and the final `attempts` counter. -/
def gen_loop (u : ℕ → ℚ) : ℕ → ℕ → List Obstacle → List Obstacle × ℕ
  | 0, attempts, obs => (obs, attempts)
  | fuel + 1, attempts, obs =>
    if obs.length < NUM_OBSTACLES then
      gen_loop u fuel (attempts + 1)
        (try_place obs
          (uniform (3 / 25) (WORLD_SIZE - 3 / 25) (u (3 * attempts)))
          (uniform (3 / 25) (WORLD_SIZE - 3 / 25) (u (3 * attempts + 1)))
          (uniform OBSTACLE_RADIUS_MIN OBSTACLE_RADIUS_MAX (u (3 * attempts + 2))))
    else (obs, attempts)

/-- `generate_obstacles` parametrised by the stream of `random()` draws. -/
def generate_with (u : ℕ → ℚ) : List Obstacle × ℕ :=
  gen_loop u max_attempts 0 []

/-- Two accepted obstacles keep centre distance at least the sum of their
radii plus the tolerance (stated on squares; radii are nonnegative). -/
def obstacles_separated (o1 o2 : Obstacle) : Prop :=
  (o1.r + o2.r + OBSTACLE_TOLERANCE) * (o1.r + o2.r + OBSTACLE_TOLERANCE) ≤
    (o1.x - o2.x) * (o1.x - o2.x) + (o1.y - o2.y) * (o1.y - o2.y)

/-- An obstacle keeps centre distance at least
`r + GOAL_RADIUS + OBSTACLE_TOLERANCE` from the point `(px, py)`. -/
def clear_of (px py : ℚ) (o : Obstacle) : Prop :=
  (o.r + GOAL_RADIUS + OBSTACLE_TOLERANCE) * (o.r + GOAL_RADIUS + OBSTACLE_TOLERANCE) ≤
    (o.x - px) * (o.x - px) + (o.y - py) * (o.y - py)

/-- The loop invariant: every accepted obstacle has its radius in the
sampled range and is clear of start and goal, and accepted obstacles are
pairwise separated. -/
def good_obstacles (obs : List Obstacle) : Prop :=
  (∀ o ∈ obs, OBSTACLE_RADIUS_MIN ≤ o.r ∧ o.r ≤ OBSTACLE_RADIUS_MAX ∧
    clear_of START_POS.1 START_POS.2 o ∧ clear_of GOAL_POS.1 GOAL_POS.2 o) ∧
  obs.Pairwise obstacles_separated

/-- A draw in `[0, 1]` keeps `uniform a b` inside `[a, b]`. -/
theorem uniform_mem (a b u : ℚ) (hab : a ≤ b) (h0 : 0 ≤ u) (h1 : u ≤ 1) :
    a ≤ uniform a b u ∧ uniform a b u ≤ b := by
  unfold uniform
  constructor <;> nlinarith

/-- A failed `hypot_lt` test with a positive threshold yields the squared
separation bound. -/
theorem hypot_lt_false (dx dy s : ℚ) (hs : 0 < s)
    (h : hypot_lt dx dy s = false) : s * s ≤ dx * dx + dy * dy := by
  unfold hypot_lt at h
  rw [decide_eq_false_iff_not] at h
  push_neg at h
  exact h hs

/-- `try_place` preserves the loop invariant for a candidate radius in the
sampled range. -/
theorem try_place_good (obs : List Obstacle) (x y r : ℚ)
    (hr1 : OBSTACLE_RADIUS_MIN ≤ r) (hr2 : r ≤ OBSTACLE_RADIUS_MAX)
    (h : good_obstacles obs) : good_obstacles (try_place obs x y r) := by
  unfold try_place
  split_ifs with htc
  · exact h
  · simp only [Bool.or_eq_true, not_or] at htc
    obtain ⟨⟨⟨hpts, _⟩, _⟩, hover⟩ := htc
    have hrpos : (0 : ℚ) < r + GOAL_RADIUS + OBSTACLE_TOLERANCE := by
      rw [OBSTACLE_RADIUS_MIN] at hr1
      rw [GOAL_RADIUS, OBSTACLE_TOLERANCE]
      linarith
    simp only [too_close_points, Bool.or_eq_true, not_or] at hpts
    have hpts' : near_point x y r START_POS.1 START_POS.2 = false ∧
        near_point x y r GOAL_POS.1 GOAL_POS.2 = false :=
      ⟨Bool.eq_false_iff.mpr hpts.1, Bool.eq_false_iff.mpr hpts.2⟩
    have hclear : clear_of START_POS.1 START_POS.2 ⟨x, y, r⟩ ∧
        clear_of GOAL_POS.1 GOAL_POS.2 ⟨x, y, r⟩ := by
      constructor <;>
        · apply hypot_lt_false _ _ _ hrpos
          first
            | exact hpts'.1
            | exact hpts'.2
    have hsep : ∀ o ∈ obs, obstacles_separated o ⟨x, y, r⟩ := by
      intro o ho
      have hof := (h.1 o ho).1
      have hpos : (0 : ℚ) < r + o.r + OBSTACLE_TOLERANCE := by
        rw [OBSTACLE_RADIUS_MIN] at hr1 hof
        rw [OBSTACLE_TOLERANCE]
        linarith
      have hfalse : hypot_lt (x - o.x) (y - o.y) (r + o.r + OBSTACLE_TOLERANCE) = false := by
        rw [Bool.eq_false_iff]
        intro hcontra
        apply hover
        unfold overlap_reject
        exact List.any_eq_true.mpr ⟨o, ho, hcontra⟩
      have hd := hypot_lt_false _ _ _ hpos hfalse
      unfold obstacles_separated
      dsimp only
      nlinarith [hd]
    constructor
    · intro o ho
      rcases List.mem_append.mp ho with hmem | hmem
      · exact h.1 o hmem
      · rw [List.mem_singleton] at hmem
        subst hmem
        exact ⟨hr1, hr2, hclear.1, hclear.2⟩
    · rw [List.pairwise_append]
      exact ⟨h.2, List.pairwise_singleton _ _, by
        intro a ha b hb
        rw [List.mem_singleton] at hb
        subst hb
        exact hsep a ha⟩

/-- The generation loop preserves the invariant, for any draw stream with
values in `[0, 1]`. -/
theorem gen_loop_good (u : ℕ → ℚ) (hu : ∀ n, 0 ≤ u n ∧ u n ≤ 1) :
    ∀ (fuel attempts : ℕ) (obs : List Obstacle),
      good_obstacles obs → good_obstacles (gen_loop u fuel attempts obs).1 := by
  intro fuel
  induction fuel with
  | zero => intro attempts obs h; simpa [gen_loop] using h
  | succ n ih =>
    intro attempts obs h
    rw [gen_loop]
    split
    · apply ih
      have hr := uniform_mem OBSTACLE_RADIUS_MIN OBSTACLE_RADIUS_MAX (u (3 * attempts + 2))
        (by norm_num [OBSTACLE_RADIUS_MIN, OBSTACLE_RADIUS_MAX])
        (hu (3 * attempts + 2)).1 (hu (3 * attempts + 2)).2
      exact try_place_good _ _ _ _ hr.1 hr.2 h
    · exact h

/-- C5: for every draw stream with values in `[0, 1]` (hence for every
seed), the obstacles returned by one `generate_obstacles` call are
pairwise separated by at least the sum of their radii plus
`OBSTACLE_TOLERANCE`, and each keeps distance at least
`r + GOAL_RADIUS + OBSTACLE_TOLERANCE` from both the start and the goal
position (distances also stated literally with `Real.sqrt`). -/
theorem generate_no_overlap (u : ℕ → ℚ) (hu : ∀ n, 0 ≤ u n ∧ u n ≤ 1) :
    (generate_with u).1.Pairwise obstacles_separated ∧
    (∀ o ∈ (generate_with u).1,
      clear_of START_POS.1 START_POS.2 o ∧ clear_of GOAL_POS.1 GOAL_POS.2 o) ∧
    (generate_with u).1.Pairwise (fun o1 o2 =>
      ((o1.r + o2.r + OBSTACLE_TOLERANCE : ℚ) : ℝ) ≤
        Real.sqrt (((o1.x - o2.x) * (o1.x - o2.x) + (o1.y - o2.y) * (o1.y - o2.y) : ℚ) : ℝ)) ∧
    (∀ o ∈ (generate_with u).1,
      ((o.r + GOAL_RADIUS + OBSTACLE_TOLERANCE : ℚ) : ℝ) ≤
        Real.sqrt (((o.x - START_POS.1) * (o.x - START_POS.1) +
          (o.y - START_POS.2) * (o.y - START_POS.2) : ℚ) : ℝ) ∧
      ((o.r + GOAL_RADIUS + OBSTACLE_TOLERANCE : ℚ) : ℝ) ≤
        Real.sqrt (((o.x - GOAL_POS.1) * (o.x - GOAL_POS.1) +
          (o.y - GOAL_POS.2) * (o.y - GOAL_POS.2) : ℚ) : ℝ)) := by
  have hgood : good_obstacles (generate_with u).1 :=
    gen_loop_good u hu max_attempts 0 [] ⟨by simp, List.Pairwise.nil⟩
  have hsqrt : ∀ s d : ℚ, 0 ≤ s → s * s ≤ d → ((s : ℚ) : ℝ) ≤ Real.sqrt ((d : ℚ) : ℝ) := by
    intro s d hs hsd
    have hd2 : ((s : ℚ) : ℝ) ^ 2 ≤ ((d : ℚ) : ℝ) := by
      rw [sq]
      exact_mod_cast hsd
    have hs' : (0 : ℝ) ≤ ((s : ℚ) : ℝ) := by exact_mod_cast hs
    calc ((s : ℚ) : ℝ) = Real.sqrt (((s : ℚ) : ℝ) ^ 2) := (Real.sqrt_sq hs').symm
      _ ≤ Real.sqrt ((d : ℚ) : ℝ) := Real.sqrt_le_sqrt hd2
  have hrnn : ∀ o ∈ (generate_with u).1, (0 : ℚ) ≤ o.r := by
    intro o ho
    have := (hgood.1 o ho).1
    rw [OBSTACLE_RADIUS_MIN] at this
    linarith
  refine ⟨hgood.2, fun o ho => ⟨(hgood.1 o ho).2.2.1, (hgood.1 o ho).2.2.2⟩, ?_, ?_⟩
  · refine hgood.2.imp_of_mem ?_
    intro o1 o2 h1 h2 hsep
    refine hsqrt _ _ ?_ hsep
    have := hrnn o1 h1
    have := hrnn o2 h2
    rw [OBSTACLE_TOLERANCE]
    linarith
  · intro o ho
    have hs : (0 : ℚ) ≤ o.r + GOAL_RADIUS + OBSTACLE_TOLERANCE := by
      have := hrnn o ho
      rw [GOAL_RADIUS, OBSTACLE_TOLERANCE]
      linarith
    exact ⟨hsqrt _ _ hs (hgood.1 o ho).2.2.1, hsqrt _ _ hs (hgood.1 o ho).2.2.2⟩

/-- Witness for C5 at the constant stream `1/2`. -/
theorem generate_no_overlap_witness :
    (generate_with (fun _ => 1 / 2)).1.Pairwise obstacles_separated ∧
    (∀ o ∈ (generate_with (fun _ => 1 / 2)).1,
      clear_of START_POS.1 START_POS.2 o ∧ clear_of GOAL_POS.1 GOAL_POS.2 o) :=
  ⟨(generate_no_overlap (fun _ => 1 / 2) (fun _ => by norm_num)).1,
    (generate_no_overlap (fun _ => 1 / 2) (fun _ => by norm_num)).2.1⟩

/-- `try_place` grows the list by at most one. -/
theorem try_place_length (obs : List Obstacle) (x y r : ℚ) :
    (try_place obs x y r).length ≤ obs.length + 1 := by
  unfold try_place
  split_ifs <;> simp

/-- The loop never returns more than `NUM_OBSTACLES` obstacles. -/
theorem gen_loop_length (u : ℕ → ℚ) :
    ∀ (fuel attempts : ℕ) (obs : List Obstacle),
      obs.length ≤ NUM_OBSTACLES → (gen_loop u fuel attempts obs).1.length ≤ NUM_OBSTACLES := by
  intro fuel
  induction fuel with
  | zero => intro attempts obs h; simpa [gen_loop] using h
  | succ n ih =>
    intro attempts obs h
    rw [gen_loop]
    split
    · next hlt =>
      apply ih
      calc (try_place obs _ _ _).length ≤ obs.length + 1 := try_place_length _ _ _ _
        _ ≤ NUM_OBSTACLES := hlt
    · exact h

/-- The final `attempts` counter never exceeds the initial counter plus the
fuel. -/
theorem gen_loop_attempts (u : ℕ → ℚ) :
    ∀ (fuel attempts : ℕ) (obs : List Obstacle),
      (gen_loop u fuel attempts obs).2 ≤ attempts + fuel := by
  intro fuel
  induction fuel with
  | zero => intro attempts obs; simp [gen_loop]
  | succ n ih =>
    intro attempts obs
    rw [gen_loop]
    split
    · calc (gen_loop u n (attempts + 1) _).2 ≤ (attempts + 1) + n := ih _ _
        _ = attempts + (n + 1) := by omega
    · simp

/-- One unfolding of the generation loop. -/
theorem gen_loop_succ (u : ℕ → ℚ) (fuel attempts : ℕ) (obs : List Obstacle) :
    gen_loop u (fuel + 1) attempts obs =
      if obs.length < NUM_OBSTACLES then
        gen_loop u fuel (attempts + 1)
          (try_place obs
            (uniform (3 / 25) (WORLD_SIZE - 3 / 25) (u (3 * attempts)))
            (uniform (3 / 25) (WORLD_SIZE - 3 / 25) (u (3 * attempts + 1)))
            (uniform OBSTACLE_RADIUS_MIN OBSTACLE_RADIUS_MAX (u (3 * attempts + 2))))
      else (obs, attempts) := rfl

/-- With all-zero draws the candidate is `(0.12, 0.12, 0.04)`; on the
empty list it passes all four rejection tests and is accepted. -/
theorem gen_zero_place_empty :
    try_place []
      (uniform (3 / 25) (WORLD_SIZE - 3 / 25) 0)
      (uniform (3 / 25) (WORLD_SIZE - 3 / 25) 0)
      (uniform OBSTACLE_RADIUS_MIN OBSTACLE_RADIUS_MAX 0) =
      [⟨3 / 25, 3 / 25, 1 / 25⟩] := by
  norm_num [NUM_OBSTACLES, try_place, too_close_points, near_point, front_cone_reject,
    ring_reject, in_goal_ring, overlap_reject, hypot_lt, uniform, WORLD_SIZE,
    OBSTACLE_RADIUS_MIN, OBSTACLE_RADIUS_MAX, GOAL_RADIUS, OBSTACLE_TOLERANCE,
    START_POS, GOAL_POS]

/-- On the singleton list the identical all-zero candidate is rejected for
overlap. -/
theorem gen_zero_place_one :
    try_place [⟨3 / 25, 3 / 25, 1 / 25⟩]
      (uniform (3 / 25) (WORLD_SIZE - 3 / 25) 0)
      (uniform (3 / 25) (WORLD_SIZE - 3 / 25) 0)
      (uniform OBSTACLE_RADIUS_MIN OBSTACLE_RADIUS_MAX 0) =
      [⟨3 / 25, 3 / 25, 1 / 25⟩] := by
  norm_num [try_place, overlap_reject, hypot_lt, uniform, WORLD_SIZE,
    OBSTACLE_RADIUS_MIN, OBSTACLE_RADIUS_MAX, OBSTACLE_TOLERANCE,
    List.any_cons, List.any_nil, Bool.or_true]

/-- With the all-zeros draw stream, the first candidate is accepted. -/
theorem gen_step_zero :
    gen_loop (fun _ => 0) 1000 0 [] =
      gen_loop (fun _ => 0) 999 1 [⟨3 / 25, 3 / 25, 1 / 25⟩] := by
  rw [show (1000 : ℕ) = 999 + 1 from rfl, gen_loop_succ]
  rw [if_pos (by norm_num [NUM_OBSTACLES] : ([] : List Obstacle).length < NUM_OBSTACLES)]
  norm_num [gen_zero_place_empty]

/-- With the all-zeros draw stream, every later candidate coincides with
the accepted obstacle and is rejected for overlap, so the loop burns all
its remaining attempts. -/
theorem gen_loop_stuck :
    ∀ (fuel attempts : ℕ),
      gen_loop (fun _ => 0) fuel attempts [⟨3 / 25, 3 / 25, 1 / 25⟩] =
        ([⟨3 / 25, 3 / 25, 1 / 25⟩], attempts + fuel) := by
  intro fuel
  induction fuel with
  | zero => intro attempts; simp [gen_loop]
  | succ n ih =>
    intro attempts
    rw [gen_loop_succ]
    rw [if_pos (by norm_num [NUM_OBSTACLES] :
      ([⟨3 / 25, 3 / 25, 1 / 25⟩] : List Obstacle).length < NUM_OBSTACLES)]
    norm_num [gen_zero_place_one, ih, Prod.mk.injEq]
    omega

/-- C8: for every draw stream (hence every seed), `generate_obstacles`
returns at most `NUM_OBSTACLES = 6` obstacles and the attempts counter
never exceeds `max_attempts = 1000`; moreover with the all-zeros stream
the attempts exhaust after a single accepted obstacle and the call
returns that shorter list, with no error path (the function is total). -/
theorem generate_degraded :
    (∀ u : ℕ → ℚ, (generate_with u).1.length ≤ NUM_OBSTACLES ∧
      (generate_with u).2 ≤ max_attempts) ∧
    (generate_with (fun _ => 0)).1.length = 1 ∧
    (generate_with (fun _ => 0)).2 = max_attempts := by
  have hzero : generate_with (fun _ => 0) = ([⟨3 / 25, 3 / 25, 1 / 25⟩], 1000) := by
    unfold generate_with max_attempts
    rw [gen_step_zero, gen_loop_stuck]
  refine ⟨fun u => ⟨?_, ?_⟩, ?_, ?_⟩
  · exact gen_loop_length u max_attempts 0 [] (by norm_num [NUM_OBSTACLES])
  · exact gen_loop_attempts u max_attempts 0 []
  · rw [hzero]
    rfl
  · rw [hzero]
    norm_num [max_attempts]

/-- 32-bit Mersenne Twister constants and state, modelling CPython's
`random.Random(seed)` (`_randommodule.c`): all arithmetic is on natural
numbers masked to 32 bits. -/
structure MTState where
  mt : Array ℕ
  mti : ℕ

/-- `init_genrand(s)`: fill the 624-word state from a 32-bit seed. -/
def mt_init_genrand (s : ℕ) : Array ℕ :=
  (List.range 623).foldl
    (fun a i =>
      let prev := a.getD (a.size - 1) 0
      a.push ((1812433253 * (prev ^^^ (prev >>> 30)) + (i + 1)) &&& 4294967295))
    #[s &&& 4294967295]

/-- CPython's seed key: the absolute value of the seed split into 32-bit
little-endian words (`[0]` for seed 0). -/
def mt_key (n : ℕ) : List ℕ :=
  if n = 0 then [0] else Nat.digits 4294967296 n

/-- One step of the first `init_by_array` mixing loop. -/
def mt_iba1 (key : List ℕ) (st : Array ℕ × ℕ × ℕ) (_ : ℕ) : Array ℕ × ℕ × ℕ :=
  let mt := st.1
  let i := st.2.1
  let j := st.2.2
  let prev := mt.getD (i - 1) 0
  let v := ((mt.getD i 0 ^^^ (((prev ^^^ (prev >>> 30)) * 1664525) &&& 4294967295)) +
    key.getD j 0 + j) &&& 4294967295
  let mt1 := mt.set! i v
  let i1 := i + 1
  let j1 := j + 1
  let mt2 := if i1 ≥ 624 then mt1.set! 0 (mt1.getD 623 0) else mt1
  let i2 := if i1 ≥ 624 then 1 else i1
  let j2 := if j1 ≥ key.length then 0 else j1
  (mt2, i2, j2)

/-- One step of the second `init_by_array` mixing loop (the subtraction is
taken modulo `2^32`). -/
def mt_iba2 (st : Array ℕ × ℕ) (_ : ℕ) : Array ℕ × ℕ :=
  let mt := st.1
  let i := st.2
  let prev := mt.getD (i - 1) 0
  let v := ((mt.getD i 0 ^^^ (((prev ^^^ (prev >>> 30)) * 1566083941) &&& 4294967295)) +
    4294967296 - i) % 4294967296
  let mt1 := mt.set! i v
  let i1 := i + 1
  let mt2 := if i1 ≥ 624 then mt1.set! 0 (mt1.getD 623 0) else mt1
  let i2 := if i1 ≥ 624 then 1 else i1
  (mt2, i2)

/-- `init_by_array(key)`: seed with 19650218, run the two mixing loops,
then force `mt[0] = 0x80000000`. -/
def mt_init_by_array (key : List ℕ) : Array ℕ :=
  let mt0 := mt_init_genrand 19650218
  let k := max 624 key.length
  let st1 := (List.range k).foldl (mt_iba1 key) (mt0, 1, 0)
  let st2 := (List.range 623).foldl mt_iba2 (st1.1, st1.2.1)
  st2.1.set! 0 2147483648

/-- One position of the twist; running it for `kk = 0, ..., 623` in order
reproduces the three C loops (`0x9908b0df = 2567483615`). -/
def mt_twist_at (mt : Array ℕ) (kk : ℕ) : Array ℕ :=
  let y := (mt.getD kk 0 &&& 2147483648) + (mt.getD ((kk + 1) % 624) 0 &&& 2147483647)
  mt.set! kk ((mt.getD ((kk + 397) % 624) 0) ^^^ (y >>> 1) ^^^
    (if y % 2 = 1 then 2567483615 else 0))

/-- The tempering of `genrand_uint32` (`0x9d2c5680 = 2636928640`,
`0xefc60000 = 4022730752`). -/
def mt_temper (y0 : ℕ) : ℕ :=
  let y1 := y0 ^^^ (y0 >>> 11)
  let y2 := y1 ^^^ ((y1 <<< 7) &&& 2636928640)
  let y3 := y2 ^^^ ((y2 <<< 15) &&& 4022730752)
  y3 ^^^ (y3 >>> 18)

/-- `genrand_uint32`: twist when the index is exhausted, then temper the
next word. -/
def mt_next (s : MTState) : ℕ × MTState :=
  let s1 : MTState := if s.mti ≥ 624 then ⟨(List.range 624).foldl mt_twist_at s.mt, 0⟩ else s
  (mt_temper (s1.mt.getD s1.mti 0), ⟨s1.mt, s1.mti + 1⟩)

/-- `random.Random(seed)`: state after `init_by_array` of the seed key,
with `mti = 624` so the first draw twists. -/
def mt_seed_state (seed : ℕ) : MTState :=
  ⟨mt_init_by_array (mt_key seed), 624⟩

/-- Advance the generator by some number of 32-bit draws. -/
def mt_skip (s : MTState) : ℕ → MTState
  | 0 => s
  | k + 1 => (mt_next (mt_skip s k)).2

/-- The stream of `random()` values of `random.Random(seed)`: the n-th
53-bit draw `(a * 2^26 + b) / 2^53` with `a = genrand() >> 5` and
`b = genrand() >> 6`. -/
def random_stream (seed : ℕ) (n : ℕ) : ℚ :=
  let s := mt_skip (mt_seed_state seed) (2 * n)
  let a := (mt_next s).1 >>> 5
  let b := (mt_next (mt_next s).2).1 >>> 6
  ((a * 67108864 + b : ℕ) : ℚ) / 9007199254740992

/-- `generate_obstacles(seed)`: the loop driven by the draws of a
`random.Random(seed)` constructed afresh inside the call — the output
depends on nothing but the seed. -/
def generate_obstacles (seed : ℕ) : List Obstacle :=
  (generate_with (random_stream seed)).1

/-- C4: `generate_obstacles` is deterministic in its seed: the draw
stream is computed from the seed alone (the source constructs
`random.Random(seed)` locally and touches no other randomness), so equal
seeds give identical obstacle sequences — same length, order, centers and
radii. -/
theorem generate_obstacles_deterministic (s1 s2 : ℕ) (h : s1 = s2) :
    generate_obstacles s1 = generate_obstacles s2 := by
  rw [h]

/-- Witness for C4 at `seed = 2` (the seed used by `main`). -/
theorem generate_obstacles_deterministic_witness :
    generate_obstacles 2 = generate_obstacles 2 :=
  generate_obstacles_deterministic 2 2 rfl

end Neurotics
